import Mathlib

/-!
Verification of the deployment bulk-delete tool
(`delete_deployments.py`): the resource model, the selector
(`should_keep` / `isDeletionCandidate`), and the workflow controller
(`main`), embedded shallowly. Machine strings are Lean `String`s,
Python sets of names are lists with membership, the compiled regex is
an abstract predicate `String → Bool` denoting `pattern.search`, and
JSON values are the inductive `Json` below.
-/

/-- A JSON-like value as produced by Python's `json.loads`
(numbers collapsed to `Int`, which suffices for every claim). -/
inductive Json where
  | null : Json
  | bool (b : Bool) : Json
  | str (s : String) : Json
  | num (n : Int) : Json
  | arr (items : List Json) : Json
  | obj (fields : List (String × Json)) : Json

/-- Python truthiness (`bool(x)`) for the JSON values above:
`None`, `False`, `""`, `0`, `[]`, `{}` are falsy, everything else truthy. -/
def pyTruthy : Json → Bool
  | Json.null => false
  | Json.bool b => b
  | Json.str s => !s.isEmpty
  | Json.num n => n != 0
  | Json.arr items => !items.isEmpty
  | Json.obj fields => !fields.isEmpty

/-- Python dict lookup (`item.get(key)`) on a JSON object's field list. -/
def dictGet (fields : List (String × Json)) (key : String) : Option Json :=
  match fields.find? (fun kv => kv.1 == key) with
  | some kv => some kv.2
  | none => none

/-- The `Deployment` dataclass. -/
structure Deployment where
  name : String
  deployment_type : String
  region : Option String
  is_default : Bool
deriving DecidableEq

/-- One iteration of the parsing loop in `list_deployments`
(lines 203-217): skip non-dicts and records without a string `name`
and a string `deploymentType`; `region` only when a string;
`is_default = bool(item.get("isDefault"))`. -/
def parse_item (item : Json) : Option Deployment :=
  match item with
  | Json.obj fields =>
    match dictGet fields "name", dictGet fields "deploymentType" with
    | some (Json.str name), some (Json.str deployment_type) =>
      some {
        name := name
        deployment_type := deployment_type
        region :=
          match dictGet fields "region" with
          | some (Json.str r) => some r
          | _ => none
        is_default := pyTruthy ((dictGet fields "isDefault").getD Json.null)
      }
    | _, _ => none
  | _ => none

/-- Embedding of `list_deployments`, taking the result of `api_request` as input:
an exception (`ConvexApiError` message) or the decoded payload. A
payload that is not a list raises; list items are parsed with
`parse_item`, skipping malformed ones. -/
def list_deployments (apiResult : Except String Json) : Except String (List Deployment) :=
  match apiResult with
  | Except.error e => Except.error e
  | Except.ok data =>
    match data with
    | Json.arr items => Except.ok (items.filterMap parse_item)
    | _ => Except.error "Unexpected response when listing deployments."

/-- Embedding of `should_keep` (lines 222-250), with the compiled regex abstracted
as the predicate `name_pattern` denoting `p.search : str -> bool`
(a compiled pattern object is always truthy in Python). -/
def should_keep (deployment : Deployment) (target_types : List String)
    (names_filter : List String) (exclude_filter : List String)
    (name_pattern : Option (String → Bool))
    (include_dev : Bool) (include_prod : Bool) : Bool :=
  if !(target_types.contains deployment.deployment_type) then true
  else if !names_filter.isEmpty && !(names_filter.contains deployment.name) then true
  else if exclude_filter.contains deployment.name then true
  else if (match name_pattern with
           | some p => !(p deployment.name)
           | none => false) then true
  else if deployment.deployment_type == "prod" && !include_prod then true
  else if deployment.deployment_type == "dev" && !include_dev then true
  else false

/-- The spec's selector: `isDeletionCandidate(D, C) = not should_keep(D, C)`. -/
def isDeletionCandidate (deployment : Deployment) (target_types : List String)
    (names_filter : List String) (exclude_filter : List String)
    (name_pattern : Option (String → Bool))
    (include_dev : Bool) (include_prod : Bool) : Bool :=
  !(should_keep deployment target_types names_filter exclude_filter
      name_pattern include_dev include_prod)

/-- The six candidate conditions written from the spec's words
(section 4.2), to be compared with `isDeletionCandidate`. -/
def isCandidateSpec (deployment : Deployment) (target_types : List String)
    (names_filter : List String) (exclude_filter : List String)
    (name_pattern : Option (String → Bool))
    (include_dev : Bool) (include_prod : Bool) : Bool :=
  target_types.contains deployment.deployment_type &&
  (names_filter.isEmpty || names_filter.contains deployment.name) &&
  !(exclude_filter.contains deployment.name) &&
  (match name_pattern with
   | some p => p deployment.name
   | none => true) &&
  (!(deployment.deployment_type == "prod") || include_prod) &&
  (!(deployment.deployment_type == "dev") || include_dev)

/-- Left-justify `s` to width `w` with spaces, as the format spec `<` does. -/
def padRight (s : String) (w : Nat) : String :=
  s ++ String.mk (List.replicate (w - s.length) ' ')

/-- Embedding of `render_table` (lines 253-270). -/
def render_table (deployments : List Deployment) : String :=
  if deployments.isEmpty then "(none)"
  else
    let rows := deployments.map (fun d =>
      (d.name, d.deployment_type, d.region.getD "-", if d.is_default then "yes" else "no"))
    let w0 := rows.foldl (fun acc r => max acc r.1.length) "name".length
    let w1 := rows.foldl (fun acc r => max acc r.2.1.length) "type".length
    let w2 := rows.foldl (fun acc r => max acc r.2.2.1.length) "region".length
    let header :=
      padRight "name" w0 ++ "  " ++ padRight "type" w1 ++ "  " ++
        padRight "region" w2 ++ "  default"
    let separator :=
      String.mk (List.replicate w0 '-') ++ "  " ++ String.mk (List.replicate w1 '-') ++
        "  " ++ String.mk (List.replicate w2 '-') ++ "  " ++
        String.mk (List.replicate "default".length '-')
    String.intercalate "\n"
      (header :: separator ::
        rows.map (fun r =>
          padRight r.1 w0 ++ "  " ++ padRight r.2.1 w1 ++ "  " ++
            padRight r.2.2.1 w2 ++ "  " ++ r.2.2.2))

/-- The CLI arguments that reach `main` after `parse_args` and
`load_token` (team, project and token are threaded separately). -/
structure Args where
  types : List String
  name : List String
  match_pattern : Option (String → Bool)
  exclude : List String
  include_dev : Bool
  include_prod : Bool
  apply : Bool
  yes : Bool

/-- Python `str.strip()`: drop leading and trailing whitespace. -/
def pyStrip (s : String) : String :=
  String.mk (((s.data.dropWhile Char.isWhitespace).reverse.dropWhile Char.isWhitespace).reverse)

/-- The set comprehensions of lines 301-302: strip each entry, drop empties. -/
def strip_filter (raw : List String) : List String :=
  (raw.map pyStrip).filter (fun s => !s.data.isEmpty)

/-- The deletion loop of `main` (lines 337-344), driven by the delete
collaborator's outcome per name. Returns the delete calls made (in
order), the per-deletion stdout lines (in order), and the accumulated
`failed` list (in order). -/
def delete_loop (delete_result : String → Except String Unit) :
    List Deployment → List String × List String × List (String × String)
  | [] => ([], [], [])
  | d :: rest =>
    let nm := d.name
    match delete_result nm with
    | Except.ok _ =>
      let r := delete_loop delete_result rest
      (nm :: r.1, ("deleted: " ++ nm) :: r.2.1, r.2.2)
    | Except.error e =>
      let r := delete_loop delete_result rest
      (nm :: r.1, ("failed: " ++ nm) :: r.2.1, (nm, e) :: r.2.2)

/-- The candidate list computed in `main` (lines 305-317). -/
def compute_candidates (deployments : List Deployment) (args : Args) : List Deployment :=
  deployments.filter (fun d =>
    !(should_keep d args.types (strip_filter args.name) (strip_filter args.exclude)
        args.match_pattern args.include_dev args.include_prod))

/-- Observable outcome of one run of `main`. -/
structure RunResult where
  exit_code : Nat
  delete_calls : List String
  failed : List (String × String)
  stdout : List String
  stderr : List String
deriving DecidableEq

/-- Embedding of `main` (lines 291-353) from the listing call on, as a function of
the listing collaborator's result, the parsed arguments, the
interactive confirmation input (consulted only when prompted), and
the delete collaborator's outcome per deployment name. An uncaught
`SystemExit` carrying a string (the confirmation mismatch) prints the
message to stderr and exits with code 1. -/
def run (team project : String) (listing : Except String Json) (args : Args)
    (user_input : String) (delete_result : String → Except String Unit) : RunResult :=
  match list_deployments listing with
  | Except.error e =>
    { exit_code := 1, delete_calls := [], failed := [], stdout := [],
      stderr := ["Error: " ++ e] }
  | Except.ok deployments =>
    let delete_candidates := compute_candidates deployments args
    let mode := if args.apply then "APPLY" else "DRY-RUN"
    let header :=
      ["Mode: " ++ mode,
       "Team/Project: " ++ team ++ "/" ++ project,
       "Total deployments in project: " ++ toString deployments.length,
       "Delete candidates: " ++ toString delete_candidates.length,
       render_table delete_candidates]
    if !args.apply then
      { exit_code := 0, delete_calls := [], failed := [],
        stdout := header ++ ["\nDry-run only. Re-run with --apply to execute deletions."],
        stderr := [] }
    else if delete_candidates.isEmpty then
      { exit_code := 0, delete_calls := [], failed := [],
        stdout := header ++ ["\nNothing to delete."], stderr := [] }
    else if !args.yes && pyStrip user_input != "DELETE" then
      { exit_code := 1, delete_calls := [], failed := [], stdout := header,
        stderr := ["Confirmation text did not match. Aborting."] }
    else
      let r := delete_loop delete_result delete_candidates
      if !r.2.2.isEmpty then
        { exit_code := 1, delete_calls := r.1, failed := r.2.2,
          stdout := header ++ r.2.1,
          stderr := "\nSome deletions failed:" ::
            r.2.2.map (fun f => "- " ++ f.1 ++ ": " ++ f.2) }
      else
        { exit_code := 0, delete_calls := r.1, failed := [],
          stdout := header ++ r.2.1 ++ ["\nAll selected deployments deleted successfully."],
          stderr := [] }

theorem bool_ite_or (c b : Bool) : (if c = true then true else b) = (c || b) := by
  cases c <;> simp

theorem should_keep_eq_or (deployment : Deployment) (target_types : List String)
    (names_filter : List String) (exclude_filter : List String)
    (name_pattern : Option (String → Bool))
    (include_dev : Bool) (include_prod : Bool) :
    should_keep deployment target_types names_filter exclude_filter
      name_pattern include_dev include_prod =
    (!(target_types.contains deployment.deployment_type) ||
     (!names_filter.isEmpty && !(names_filter.contains deployment.name)) ||
     exclude_filter.contains deployment.name ||
     (match name_pattern with
      | some p => !(p deployment.name)
      | none => false) ||
     (deployment.deployment_type == "prod" && !include_prod) ||
     (deployment.deployment_type == "dev" && !include_dev)) := by
  unfold should_keep
  simp only [bool_ite_or, Bool.or_false, Bool.or_assoc]

/-- Did the delete collaborator succeed for this name? -/
def exceptOk (r : Except String Unit) : Bool :=
  match r with
  | Except.ok _ => true
  | Except.error _ => false

theorem delete_loop_calls (delete_result : String → Except String Unit)
    (ds : List Deployment) :
    (delete_loop delete_result ds).1 = ds.map Deployment.name := by
  induction ds with
  | nil => rfl
  | cons d rest ih =>
    unfold delete_loop
    cases h : delete_result d.name <;> simp [h, ih]

theorem delete_loop_failed_names (delete_result : String → Except String Unit)
    (ds : List Deployment) :
    (delete_loop delete_result ds).2.2.map Prod.fst =
      (ds.filter (fun d => !(exceptOk (delete_result d.name)))).map Deployment.name := by
  induction ds with
  | nil => rfl
  | cons d rest ih =>
    unfold delete_loop
    cases h : delete_result d.name <;> simp [h, ih, exceptOk]

theorem delete_loop_failed_isEmpty (delete_result : String → Except String Unit)
    (ds : List Deployment) :
    (delete_loop delete_result ds).2.2.isEmpty =
      ds.all (fun d => exceptOk (delete_result d.name)) := by
  induction ds with
  | nil => rfl
  | cons d rest ih =>
    unfold delete_loop
    cases h : delete_result d.name <;> simp [h, ih, exceptOk]

theorem selector_eq_spec (d : Deployment) (tt nf ef : List String)
    (np : Option (String → Bool)) (idev iprod : Bool) :
    isDeletionCandidate d tt nf ef np idev iprod = isCandidateSpec d tt nf ef np idev iprod := by
  unfold isDeletionCandidate isCandidateSpec
  rw [should_keep_eq_or]
  cases np <;>
    simp [Bool.not_or, Bool.not_and, Bool.not_not, Bool.and_assoc]

/-- C1: for every deployment D and criteria C, `isDeletionCandidate`
(that is, `not should_keep`) is false whenever D has type `"prod"`
and `include_prod` is false, regardless of all other fields; and
symmetrically for `"dev"` and `include_dev`. -/
theorem C1_prod_dev_guard (d : Deployment) (tt nf ef : List String)
    (np : Option (String → Bool)) (idev iprod : Bool) :
    (d.deployment_type = "prod" → iprod = false →
      isDeletionCandidate d tt nf ef np idev iprod = false) ∧
    (d.deployment_type = "dev" → idev = false →
      isDeletionCandidate d tt nf ef np idev iprod = false) := by
  constructor <;> intro h1 h2 <;>
    simp [isDeletionCandidate, should_keep_eq_or, h1, h2]

/-- Witness for C1 at a concrete prod and a concrete dev deployment. -/
theorem C1_prod_dev_guard_witness :
    isDeletionCandidate
      { name := "p1", deployment_type := "prod", region := none, is_default := false }
      ["prod"] [] [] none false false = false ∧
    isDeletionCandidate
      { name := "d1", deployment_type := "dev", region := none, is_default := false }
      ["dev"] [] [] none false false = false :=
  ⟨(C1_prod_dev_guard
      { name := "p1", deployment_type := "prod", region := none, is_default := false }
      ["prod"] [] [] none false false).1 rfl rfl,
   (C1_prod_dev_guard
      { name := "d1", deployment_type := "dev", region := none, is_default := false }
      ["dev"] [] [] none false false).2 rfl rfl⟩

/-- C4: D is a deletion candidate iff all six filter conditions hold
(type targeted; names filter empty or containing the name; name not
excluded; pattern absent or matching the name; prod implies
include_prod; dev implies include_dev). -/
theorem C4_selector_iff (d : Deployment) (tt nf ef : List String)
    (np : Option (String → Bool)) (idev iprod : Bool) :
    isDeletionCandidate d tt nf ef np idev iprod = isCandidateSpec d tt nf ef np idev iprod :=
  selector_eq_spec d tt nf ef np idev iprod

/-- C8: the selector never reads `is_default` (two deployments equal
except for that flag get the same verdict), and a default deployment
satisfying the six conditions is a candidate. -/
theorem C8_isDefault_noninterference (n t : String) (r : Option String) (b b' : Bool)
    (tt nf ef : List String) (np : Option (String → Bool)) (idev iprod : Bool) :
    (isDeletionCandidate ⟨n, t, r, b⟩ tt nf ef np idev iprod =
      isDeletionCandidate ⟨n, t, r, b'⟩ tt nf ef np idev iprod) ∧
    (isCandidateSpec ⟨n, t, r, true⟩ tt nf ef np idev iprod = true →
      isDeletionCandidate ⟨n, t, r, true⟩ tt nf ef np idev iprod = true) := by
  refine ⟨rfl, fun h => ?_⟩
  rw [selector_eq_spec]
  exact h

/-- Witness for C8: flipping `is_default` on a concrete preview
deployment leaves the verdict unchanged, and the default-flagged copy
is a candidate since it meets all six conditions. -/
theorem C8_isDefault_noninterference_witness :
    (isDeletionCandidate
      { name := "x", deployment_type := "preview", region := none, is_default := false }
      ["preview"] [] [] none false false =
     isDeletionCandidate
      { name := "x", deployment_type := "preview", region := none, is_default := true }
      ["preview"] [] [] none false false) ∧
    isDeletionCandidate
      { name := "x", deployment_type := "preview", region := none, is_default := true }
      ["preview"] [] [] none false false = true :=
  ⟨(C8_isDefault_noninterference "x" "preview" none false true
      ["preview"] [] [] none false false).1,
   (C8_isDefault_noninterference "x" "preview" none false true
      ["preview"] [] [] none false false).2 (by decide)⟩

/-- A concrete listing payload with one preview deployment, used by witnesses. -/
def sampleListing : Except String Json :=
  Except.ok (Json.arr [Json.obj [("name", Json.str "pv-1"), ("deploymentType", Json.str "preview")]])

/-- The parsed form of `sampleListing`. -/
def sampleParsed : List Deployment :=
  [{ name := "pv-1", deployment_type := "preview", region := none, is_default := false }]

/-- Default-ish arguments: target preview, no filters, dry-run. -/
def sampleArgs : Args :=
  { types := ["preview"], name := [], match_pattern := none, exclude := [],
    include_dev := false, include_prod := false, apply := false, yes := false }

/-- Variant of `sampleArgs` with the apply flag set. -/
def applyArgs : Args :=
  { sampleArgs with apply := true }

/-- A delete collaborator that always succeeds. -/
def allOk : String → Except String Unit := fun _ => Except.ok ()

/-- C2: with the apply flag off (dry-run), the run makes zero calls to
the delete collaborator whatever the listing result and the other
flags, and exits 0 whenever the listing succeeded. -/
theorem C2_dry_run (team project : String) (listing : Except String Json) (args : Args)
    (user_input : String) (delete_result : String → Except String Unit)
    (h : args.apply = false) :
    (run team project listing args user_input delete_result).delete_calls = [] ∧
    (∀ ds, list_deployments listing = Except.ok ds →
      (run team project listing args user_input delete_result).exit_code = 0) := by
  unfold run
  cases hl : list_deployments listing with
  | error e =>
    exact ⟨rfl, fun ds hds => by cases hds⟩
  | ok ds =>
    exact ⟨by simp [h], fun _ _ => by simp [h]⟩

/-- Witness for C2 on a concrete one-deployment listing. -/
theorem C2_dry_run_witness :
    (run "t" "p" sampleListing sampleArgs "anything" allOk).delete_calls = [] ∧
    (run "t" "p" sampleListing sampleArgs "anything" allOk).exit_code = 0 :=
  ⟨(C2_dry_run "t" "p" sampleListing sampleArgs "anything" allOk rfl).1,
   (C2_dry_run "t" "p" sampleListing sampleArgs "anything" allOk rfl).2 sampleParsed rfl⟩

/-- C7: a listing collaborator error, or a payload that is not a
sequence, fails the whole run: exit code 1 and zero delete calls. -/
theorem C7_listing_failure (team project : String) (listing : Except String Json)
    (args : Args) (user_input : String) (delete_result : String → Except String Unit)
    (h : (∃ e, listing = Except.error e) ∨
         (∃ j, listing = Except.ok j ∧ ∀ items, j ≠ Json.arr items)) :
    (run team project listing args user_input delete_result).exit_code = 1 ∧
    (run team project listing args user_input delete_result).delete_calls = [] := by
  have herr : ∃ e, list_deployments listing = Except.error e := by
    rcases h with ⟨e, rfl⟩ | ⟨j, rfl, hj⟩
    · exact ⟨e, rfl⟩
    · cases j with
      | arr items => exact absurd rfl (hj items)
      | null => exact ⟨_, rfl⟩
      | bool b => exact ⟨_, rfl⟩
      | str s => exact ⟨_, rfl⟩
      | num n => exact ⟨_, rfl⟩
      | obj fields => exact ⟨_, rfl⟩
  rcases herr with ⟨e, he⟩
  unfold run
  rw [he]
  exact ⟨rfl, rfl⟩

/-- Witness for C7: a transport error and a non-sequence payload. -/
theorem C7_listing_failure_witness :
    (run "t" "p" (Except.error "GET /deployments failed: boom") sampleArgs "x" allOk).exit_code = 1 ∧
    (run "t" "p" (Except.ok (Json.obj [])) sampleArgs "x" allOk).delete_calls = [] :=
  ⟨(C7_listing_failure "t" "p" (Except.error "GET /deployments failed: boom") sampleArgs "x" allOk
      (Or.inl ⟨_, rfl⟩)).1,
   (C7_listing_failure "t" "p" (Except.ok (Json.obj [])) sampleArgs "x" allOk
      (Or.inr ⟨Json.obj [], rfl, fun _ hh => Json.noConfusion hh⟩)).2⟩

/-- C9: in apply mode with no candidates the run exits 0 with zero
delete calls, reports "Nothing to delete", and never consults the
interactive input (it stops before confirmation). -/
theorem C9_apply_nothing_to_delete (team project : String) (listing : Except String Json)
    (args : Args) (user_input : String) (delete_result : String → Except String Unit)
    (ds : List Deployment)
    (hl : list_deployments listing = Except.ok ds)
    (happly : args.apply = true)
    (hcand : compute_candidates ds args = []) :
    (run team project listing args user_input delete_result).exit_code = 0 ∧
    (run team project listing args user_input delete_result).delete_calls = [] ∧
    "\nNothing to delete." ∈ (run team project listing args user_input delete_result).stdout ∧
    (∀ other_input, run team project listing args other_input delete_result =
      run team project listing args user_input delete_result) := by
  unfold run
  rw [hl]
  simp [happly, hcand]

/-- Witness for C9 on an empty listing in apply mode. -/
theorem C9_apply_nothing_to_delete_witness :
    (run "t" "p" (Except.ok (Json.arr [])) applyArgs "anything" allOk).exit_code = 0 ∧
    (run "t" "p" (Except.ok (Json.arr [])) applyArgs "anything" allOk).delete_calls = [] ∧
    "\nNothing to delete." ∈ (run "t" "p" (Except.ok (Json.arr [])) applyArgs "anything" allOk).stdout :=
  ⟨(C9_apply_nothing_to_delete "t" "p" (Except.ok (Json.arr [])) applyArgs "anything" allOk [] rfl rfl rfl).1,
   (C9_apply_nothing_to_delete "t" "p" (Except.ok (Json.arr [])) applyArgs "anything" allOk [] rfl rfl rfl).2.1,
   (C9_apply_nothing_to_delete "t" "p" (Except.ok (Json.arr [])) applyArgs "anything" allOk [] rfl rfl rfl).2.2.1⟩

/-- C3 as stated is false: the input `"  DELETE  "` differs from the
exact literal `"DELETE"`, yet with one candidate in apply mode and
confirmation not bypassed the run proceeds to delete it and exits 0,
because `confirm_or_exit` strips the response before comparing. -/
theorem C3_counterexample :
    "  DELETE  " ≠ "DELETE" ∧
    (run "t" "p" sampleListing applyArgs "  DELETE  " allOk).delete_calls = ["pv-1"] ∧
    (run "t" "p" sampleListing applyArgs "  DELETE  " allOk).exit_code = 0 :=
  ⟨by decide, by decide, by decide⟩

/-- C3 amended: in apply mode with at least one candidate and
confirmation not bypassed, any input whose whitespace-stripped form
differs from `"DELETE"` aborts the run with zero delete calls, exit
code 1, and the abort message; in particular lowercase `"delete"`
aborts (the comparison is case-sensitive). -/
theorem C3_amended_confirmation (team project : String) (listing : Except String Json)
    (args : Args) (user_input : String) (delete_result : String → Except String Unit)
    (ds : List Deployment)
    (hl : list_deployments listing = Except.ok ds)
    (happly : args.apply = true) (hyes : args.yes = false)
    (hcand : compute_candidates ds args ≠ [])
    (hmismatch : pyStrip user_input ≠ "DELETE") :
    (run team project listing args user_input delete_result).exit_code = 1 ∧
    (run team project listing args user_input delete_result).delete_calls = [] ∧
    (run team project listing args user_input delete_result).stderr =
      ["Confirmation text did not match. Aborting."] := by
  unfold run
  rw [hl]
  simp [happly, hyes, hcand, hmismatch]

/-- Witness for amended C3: lowercase "delete" aborts a one-candidate
apply run. -/
theorem C3_amended_confirmation_witness :
    (run "t" "p" sampleListing applyArgs "delete" allOk).exit_code = 1 ∧
    (run "t" "p" sampleListing applyArgs "delete" allOk).delete_calls = [] :=
  ⟨(C3_amended_confirmation "t" "p" sampleListing applyArgs "delete" allOk sampleParsed
      rfl rfl rfl (by decide) (by decide)).1,
   (C3_amended_confirmation "t" "p" sampleListing applyArgs "delete" allOk sampleParsed
      rfl rfl rfl (by decide) (by decide)).2.1⟩

/-- C10: the confirmation check strips the typed response, so any
input whose stripped form equals `"DELETE"` passes confirmation and
the run proceeds to the Deleting phase (one delete call per
candidate). -/
theorem C10_strip_confirmation (team project : String) (listing : Except String Json)
    (args : Args) (user_input : String) (delete_result : String → Except String Unit)
    (ds : List Deployment)
    (hl : list_deployments listing = Except.ok ds)
    (happly : args.apply = true)
    (hstrip : pyStrip user_input = "DELETE") :
    (run team project listing args user_input delete_result).delete_calls =
      (compute_candidates ds args).map Deployment.name := by
  unfold run
  rw [hl]
  by_cases hc : compute_candidates ds args = []
  · simp [happly, hc]
  · simp only [happly, hstrip]
    simp [hc, delete_loop_calls]
    split <;> simp [delete_loop_calls]

/-- Witness for C10: the input "DELETE\n" is not the exact literal,
yet the run performs the deletion. -/
theorem C10_strip_confirmation_witness :
    "DELETE\n" ≠ "DELETE" ∧
    (run "t" "p" sampleListing applyArgs "DELETE\n" allOk).delete_calls =
      (compute_candidates sampleParsed applyArgs).map Deployment.name :=
  ⟨by decide,
   C10_strip_confirmation "t" "p" sampleListing applyArgs "DELETE\n" allOk sampleParsed
     rfl rfl (by decide)⟩


/-- C5: once the Deleting phase is reached (apply mode, confirmation
bypassed or satisfied), the delete collaborator is called exactly once
per candidate in listing order; failures are recorded without halting
or skipping; the run exits 0 exactly when every attempted deletion
succeeded and 1 as soon as one failed. -/
theorem C5_deleting_phase (team project : String) (listing : Except String Json)
    (args : Args) (user_input : String) (delete_result : String → Except String Unit)
    (ds : List Deployment)
    (hl : list_deployments listing = Except.ok ds)
    (happly : args.apply = true)
    (hconf : args.yes = true ∨ pyStrip user_input = "DELETE") :
    (run team project listing args user_input delete_result).delete_calls =
      (compute_candidates ds args).map Deployment.name ∧
    (run team project listing args user_input delete_result).failed.map Prod.fst =
      ((compute_candidates ds args).filter
        (fun d => !(exceptOk (delete_result d.name)))).map Deployment.name ∧
    (run team project listing args user_input delete_result).exit_code =
      (if (compute_candidates ds args).all (fun d => exceptOk (delete_result d.name))
       then 0 else 1) ∧
    ((run team project listing args user_input delete_result).exit_code ≠ 0 ↔
      ∃ d ∈ compute_candidates ds args, exceptOk (delete_result d.name) = false) := by
  have hcalls := delete_loop_calls delete_result (compute_candidates ds args)
  have hnames := delete_loop_failed_names delete_result (compute_candidates ds args)
  have hfail := delete_loop_failed_isEmpty delete_result (compute_candidates ds args)
  unfold run
  rw [hl]
  by_cases hc : compute_candidates ds args = []
  · simp [happly, hc, delete_loop]
  · have hcne : (compute_candidates ds args).isEmpty = false := by
      cases hcc : compute_candidates ds args with
      | nil => exact absurd hcc hc
      | cons a l => rfl
    have hconfirm : (!args.yes && pyStrip user_input != "DELETE") = false := by
      rcases hconf with hy | hs
      · simp [hy]
      · simp [hs]
    cases hx : (delete_loop delete_result (compute_candidates ds args)).2.2.isEmpty with
    | true =>
      have hall : (compute_candidates ds args).all
          (fun d => exceptOk (delete_result d.name)) = true := hfail.symm.trans hx
      have hfilter : (compute_candidates ds args).filter
          (fun d => !(exceptOk (delete_result d.name))) = [] := by
        rw [List.filter_eq_nil_iff]
        intro a ha
        rw [List.all_eq_true] at hall
        simp [hall a ha]
      simp only [happly, hconfirm, hcne, hx]
      simp [hcalls, hfilter, hall]
      intro d hd
      rw [List.all_eq_true] at hall
      exact hall d hd
    | false =>
      have hall : (compute_candidates ds args).all
          (fun d => exceptOk (delete_result d.name)) = false := hfail.symm.trans hx
      simp only [happly, hconfirm, hcne, hx]
      simp [hcalls, hnames, hall]
      by_contra hne
      push_neg at hne
      have : (compute_candidates ds args).all
          (fun d => exceptOk (delete_result d.name)) = true := by
        rw [List.all_eq_true]
        intro d hd
        have := hne d hd
        revert this
        cases exceptOk (delete_result d.name) <;> simp
      exact absurd this (by simp [hall])

/-- A listing with three preview deployments a, b, c. -/
def threeListing : Except String Json :=
  Except.ok (Json.arr
    [Json.obj [("name", Json.str "a"), ("deploymentType", Json.str "preview")],
     Json.obj [("name", Json.str "b"), ("deploymentType", Json.str "preview")],
     Json.obj [("name", Json.str "c"), ("deploymentType", Json.str "preview")]])

/-- The parsed form of `threeListing`. -/
def threeParsed : List Deployment :=
  [{ name := "a", deployment_type := "preview", region := none, is_default := false },
   { name := "b", deployment_type := "preview", region := none, is_default := false },
   { name := "c", deployment_type := "preview", region := none, is_default := false }]

/-- A delete collaborator failing exactly on "b". -/
def failB : String → Except String Unit :=
  fun nm => if nm == "b" then Except.error "boom" else Except.ok ()

/-- Variant of `sampleArgs` with both the apply and yes flags set. -/
def applyYesArgs : Args :=
  { sampleArgs with apply := true, yes := true }

/-- Witness for C5: three candidates, the second fails; all three are
attempted in order, the failure is recorded, and the run exits 1. -/
theorem C5_deleting_phase_witness :
    (run "t" "p" threeListing applyYesArgs "" failB).delete_calls = ["a", "b", "c"] ∧
    (run "t" "p" threeListing applyYesArgs "" failB).failed.map Prod.fst = ["b"] ∧
    (run "t" "p" threeListing applyYesArgs "" failB).exit_code = 1 :=
  ⟨((C5_deleting_phase "t" "p" threeListing applyYesArgs "" failB threeParsed
      rfl rfl (Or.inl rfl)).1).trans (by decide),
   ((C5_deleting_phase "t" "p" threeListing applyYesArgs "" failB threeParsed
      rfl rfl (Or.inl rfl)).2.1).trans (by decide),
   ((C5_deleting_phase "t" "p" threeListing applyYesArgs "" failB threeParsed
      rfl rfl (Or.inl rfl)).2.2.1).trans (by decide)⟩

/-- C6 as stated is false on the `isDefault` clause: a record whose
raw `isDefault` is the non-boolean (truthy) string "yes" parses with
`is_default = true`, because the code applies Python `bool(...)`
truthiness rather than requiring an actual boolean. -/
theorem C6_counterexample :
    parse_item (Json.obj [("name", Json.str "a"), ("deploymentType", Json.str "dev"),
      ("isDefault", Json.str "yes")]) =
    some { name := "a", deployment_type := "dev", region := none, is_default := true } := by
  decide

/-- Evaluation of `parse_item` on a mapping, with the outer match reduced. -/
theorem parse_item_obj (fields : List (String × Json)) :
    parse_item (Json.obj fields) =
      (match dictGet fields "name", dictGet fields "deploymentType" with
       | some (Json.str name), some (Json.str deployment_type) =>
         some {
           name := name
           deployment_type := deployment_type
           region :=
             match dictGet fields "region" with
             | some (Json.str r) => some r
             | _ => none
           is_default := pyTruthy ((dictGet fields "isDefault").getD Json.null) }
       | _, _ => none) := rfl

/-- C6 amended: raw records that are not mappings or lack a string
`name` or a string `deploymentType` are silently skipped (they appear
nowhere in the parsed listing, hence neither among candidates nor kept
deployments, and are excluded from the total count); for parsed
records, `region` is absent whenever the raw value is not a string,
and `is_default` is the Python truthiness of the raw value — false
when missing or falsy, but true for truthy non-boolean values. -/
theorem C6_amended_parsing :
    (∀ item, (∀ fields, item ≠ Json.obj fields) → parse_item item = none) ∧
    (∀ fields, (∀ s, dictGet fields "name" ≠ some (Json.str s)) →
      parse_item (Json.obj fields) = none) ∧
    (∀ fields, (∀ s, dictGet fields "deploymentType" ≠ some (Json.str s)) →
      parse_item (Json.obj fields) = none) ∧
    (∀ pre post item, parse_item item = none →
      list_deployments (Except.ok (Json.arr (pre ++ item :: post))) =
        list_deployments (Except.ok (Json.arr (pre ++ post)))) ∧
    (∀ fields d, parse_item (Json.obj fields) = some d →
      ((∀ s, dictGet fields "region" ≠ some (Json.str s)) → d.region = none) ∧
      d.is_default = pyTruthy ((dictGet fields "isDefault").getD Json.null)) := by
  refine ⟨?_, ?_, ?_, ?_, ?_⟩
  · intro item h
    cases item
    case obj fields => exact absurd rfl (h fields)
    all_goals rfl
  · intro fields h
    rw [parse_item_obj]
    cases hn : dictGet fields "name" with
    | none => rfl
    | some v =>
      cases v
      case str s => exact absurd hn (h s)
      all_goals rfl
  · intro fields h
    rw [parse_item_obj]
    cases hn : dictGet fields "name" with
    | none => rfl
    | some v =>
      cases v
      case str s =>
        cases hdt : dictGet fields "deploymentType" with
        | none => rfl
        | some w =>
          cases w
          case str t => exact absurd hdt (h t)
          all_goals rfl
      all_goals rfl
  · intro pre post item hnone
    simp [list_deployments, List.filterMap_append, List.filterMap_cons, hnone]
  · intro fields d hd
    rw [parse_item_obj] at hd
    cases hn : dictGet fields "name" with
    | none => rw [hn] at hd; exact Option.noConfusion hd
    | some v =>
      rw [hn] at hd
      cases v
      case str s =>
        cases hdt : dictGet fields "deploymentType" with
        | none => rw [hdt] at hd; exact Option.noConfusion hd
        | some w =>
          rw [hdt] at hd
          cases w
          case str t =>
            injection hd with hdd
            subst hdd
            refine ⟨fun h => ?_, rfl⟩
            cases hr : dictGet fields "region" with
            | none => simp [hr]
            | some u =>
              cases u
              case str r => exact absurd hr (h r)
              all_goals simp [hr]
          all_goals exact Option.noConfusion hd
      all_goals exact Option.noConfusion hd

/-- Witness for amended C6: a non-mapping record and a record without
a string name are skipped (and dropped from the parsed listing), and
a well-formed record with a non-string region and a missing
`isDefault` parses with `region = none` and `is_default = false`. -/
theorem C6_amended_parsing_witness :
    parse_item Json.null = none ∧
    parse_item (Json.obj [("deploymentType", Json.str "dev")]) = none ∧
    list_deployments (Except.ok (Json.arr [Json.null,
      Json.obj [("name", Json.str "a"), ("deploymentType", Json.str "dev")]])) =
      list_deployments (Except.ok (Json.arr
        [Json.obj [("name", Json.str "a"), ("deploymentType", Json.str "dev")]])) ∧
    ({ name := "a", deployment_type := "dev", region := none, is_default := false } :
        Deployment).region = none ∧
    ({ name := "a", deployment_type := "dev", region := none, is_default := false } :
        Deployment).is_default =
      pyTruthy ((dictGet [("name", Json.str "a"), ("deploymentType", Json.str "dev"),
        ("region", Json.num 3)] "isDefault").getD Json.null) :=
  ⟨C6_amended_parsing.1 Json.null (fun _ hh => Json.noConfusion hh),
   C6_amended_parsing.2.1 [("deploymentType", Json.str "dev")] (fun _ hh => Option.noConfusion hh),
   C6_amended_parsing.2.2.2.1 []
     [Json.obj [("name", Json.str "a"), ("deploymentType", Json.str "dev")]] Json.null rfl,
   (C6_amended_parsing.2.2.2.2
     [("name", Json.str "a"), ("deploymentType", Json.str "dev"), ("region", Json.num 3)]
     { name := "a", deployment_type := "dev", region := none, is_default := false } rfl).1
     (fun _ hh => Option.noConfusion hh (fun h2 => Json.noConfusion h2)),
   (C6_amended_parsing.2.2.2.2
     [("name", Json.str "a"), ("deploymentType", Json.str "dev"), ("region", Json.num 3)]
     { name := "a", deployment_type := "dev", region := none, is_default := false } rfl).2⟩
